import Mathlib

/-! Qt Thread Utilities: `POSIXThread` and `Threaded<T>`.

A shallow embedding of `src/posixthread.h`, `src/posixthread.cpp` and
`src/threaded.h`.

Conventions of the embedding
* A `QThread` object is identified by a `ThreadRef`, any other `QObject` by an
  `ObjRef`; the null pointer is `none`.
* Calls into the platform (`pthread_setschedparam`, `QThread::isRunning`,
  `QThread::wait`, ...) are answered by an environment record, whose answers may
  depend on everything that was called before; the calls themselves are
  appended to a trace, so that "called exactly once" is a statement about the
  trace.
* `QMutex` / `QMutexLocker` operations delimit critical sections and have no
  effect on the sequential meaning of one call; they are not represented.
* `tr(...)` without an installed translator returns its argument.
-/

namespace QtThreadUtilities

/-- Identity of a `QThread` object (a `QThread *`). -/
abbrev ThreadRef := Nat

/-- Identity of a `QObject` other than the managed one (a `QObject *`). -/
abbrev ObjRef := Nat

/-! ## posixthread.h / posixthread.cpp -/

/-- The enumeration `POSIXThread::Scheduler`. -/
inductive Scheduler where
  | SchedDefault
  | SchedFIFO
  | SchedRoundRobin
  deriving DecidableEq, Repr

/-- The enumerator values: `SchedDefault = 0`, `SchedFIFO = 1`,
`SchedRoundRobin = 2`. -/
def Scheduler.toInt : Scheduler → Int
  | .SchedDefault => 0
  | .SchedFIFO => 1
  | .SchedRoundRobin => 2

/-- The class `POSIXThread::Error`: `mCode` and `mText`. -/
structure Error where
  mCode : Int
  mText : String
  deriving DecidableEq, Repr

/-- The accessor `Error::code()`. -/
def Error.code (e : Error) : Int := e.mCode

/-- The accessor `Error::text()`. -/
def Error.text (e : Error) : String := e.mText

/-- The method `Error::setError(code, text)`: overwrites both members. -/
def Error.setError (_e : Error) (code : Int) (text : String) : Error :=
  { mCode := code, mText := text }

/-- The default constructor `Error() : Error(0, "")`. -/
def Error.init : Error := Error.setError ⟨0, ""⟩ 0 ""

/-- One invocation `pthread_setschedparam(thread, policy, &param)` with
`param.sched_priority = priority`. -/
structure SchedCall where
  thread : Nat
  policy : Scheduler
  priority : Nat
  deriving DecidableEq, Repr

/-- The platform as `posixthread.cpp` sees it: the three `errno.h` constants
the `switch` names (their values are not part of the repository) and the
return code of `pthread_setschedparam`, which may depend on the calls made
before this one. -/
structure Posix where
  EPERM : Int
  EINVAL : Int
  ESRCH : Int
  pthread_setschedparam : List SchedCall → SchedCall → Int

/-- The `case` labels of a C++ `switch` are pairwise different (a duplicate
label is ill-formed): `0`, `EPERM`, `EINVAL`, `ESRCH`. -/
def Posix.distinctLabels (env : Posix) : Prop :=
  env.EPERM ≠ 0 ∧ env.EINVAL ≠ 0 ∧ env.ESRCH ≠ 0 ∧
  env.EPERM ≠ env.EINVAL ∧ env.EPERM ≠ env.ESRCH ∧ env.EINVAL ≠ env.ESRCH

instance (env : Posix) : Decidable env.distinctLabels := by
  unfold Posix.distinctLabels; infer_instance

/-- The thread that executes a call: `QThread::currentThread()` and
`QThread::currentThreadId()`. -/
structure Caller where
  currentThread : ThreadRef
  currentThreadId : Nat
  deriving DecidableEq, Repr

/-- The state of one `POSIXThread` object.  `self` is `this`; `running` is the
flag behind the inherited `QThread::isRunning()`; `calls` is the trace of
`pthread_setschedparam` invocations made by this object and `captures` counts
the executions of the assignment `mThreadId = ...currentThreadId()` (both are
observers, the code does not read them). -/
structure POSIXThread where
  self : ThreadRef
  running : Bool
  mScheduler : Scheduler
  mPriority : Nat
  mThreadId : Nat
  mLastError : Error
  calls : List SchedCall
  captures : Nat
  deriving DecidableEq, Repr

/-- The constructor `POSIXThread::POSIXThread(parent)`: `SchedDefault`,
priority `0`, thread id `0`, default `Error`; it also connects `finished()` to
`reset()` (see `POSIXThread.finish`). -/
def POSIXThread.init (self : ThreadRef) : POSIXThread :=
  { self := self, running := false, mScheduler := .SchedDefault, mPriority := 0,
    mThreadId := 0, mLastError := Error.init, calls := [], captures := 0 }

/-- The inherited `QThread::isRunning()`. -/
def POSIXThread.isRunning (t : POSIXThread) : Bool := t.running

/-- The message text for the `default:` label:
`tr("... the error code is %1").arg(result)`. -/
def unknownCodeMessage (result : Int) : String :=
  "Failed to set thread policy: the error code is " ++ toString result

/-- The `switch (result)` of `POSIXThread::setThreadParams()`: the message
stored next to the code. -/
def errorMessage (env : Posix) (result : Int) : String :=
  if result = 0 then ""
  else if result = env.EPERM then
    "Failed to set thread policy: Operation not permitted"
  else if result = env.EINVAL then
    "Failed to set thread policy: Incorrect scheduler or priority value"
  else if result = env.ESRCH then
    "Failed to set thread policy: The thread is not found"
  else unknownCodeMessage result

/-- The private overload `void POSIXThread::setThreadParams()` (the apply
step), executed by the thread `cur`.

When no id is captured yet (`mThreadId == 0`) the id is captured only if the
caller is this very thread; any other caller returns at once.  Then
`pthread_setschedparam(mThreadId, mScheduler, {mPriority})` is called and the
code, with its message, is stored in `mLastError`. -/
def POSIXThread.setThreadParams0 (env : Posix) (cur : Caller) (t : POSIXThread) :
    POSIXThread :=
  let captured : Option POSIXThread :=
    if t.mThreadId = 0 then
      if cur.currentThread = t.self then
        some { t with mThreadId := cur.currentThreadId, captures := t.captures + 1 }
      else
        none
    else some t
  match captured with
  | none => t
  | some t1 =>
    let call : SchedCall :=
      { thread := t1.mThreadId, policy := t1.mScheduler, priority := t1.mPriority }
    let result := env.pthread_setschedparam t1.calls call
    let message := errorMessage env result
    { t1 with calls := t1.calls ++ [call],
              mLastError := t1.mLastError.setError result message }

/-- The public `void POSIXThread::setThreadParams(scheduler, priority)`,
executed by the thread `cur`.  The parameter is a `quint8`, so the value that
arrives is `priority % 256`. -/
def POSIXThread.setThreadParams (env : Posix) (cur : Caller) (scheduler : Scheduler)
    (priority : Nat) (t : POSIXThread) : POSIXThread :=
  let t1 := { t with mScheduler := scheduler, mPriority := priority % 256 }
  if t1.isRunning then t1.setThreadParams0 env cur else t1

/-- The method `void POSIXThread::run()`, executed by the thread `cur`: the
apply step, then `QThread::run()` (the event loop, which does not touch the
members of this class). -/
def POSIXThread.run (env : Posix) (cur : Caller) (t : POSIXThread) : POSIXThread :=
  t.setThreadParams0 env cur

/-- The method `POSIXThread::lastError()`. -/
def POSIXThread.lastError (t : POSIXThread) : Error := t.mLastError

/-- The slot `void POSIXThread::reset()`. -/
def POSIXThread.reset (t : POSIXThread) : POSIXThread :=
  { t with mThreadId := 0, mScheduler := .SchedDefault, mPriority := 0 }

/-- The inherited `QThread::start()` as far as this class observes it: a thread
that is not running becomes running (its `run()` is then executed by the new
thread); a running one is left alone. -/
def POSIXThread.start (t : POSIXThread) : POSIXThread :=
  if t.running then t else { t with running := true }

/-- The end of a run cycle: `run()` has returned, the thread is no longer
running, `finished()` is emitted and the slot connected in the constructor,
`reset()`, fires. -/
def POSIXThread.finish (t : POSIXThread) : POSIXThread :=
  POSIXThread.reset { t with running := false }

/-- A platform with the Linux values `EPERM = 1`, `EINVAL = 22`, `ESRCH = 3`
whose scheduling call always returns `code`. -/
def linuxReturning (code : Int) : Posix :=
  { EPERM := 1, EINVAL := 22, ESRCH := 3, pthread_setschedparam := fun _ _ => code }

/-- A platform with the Linux constants that grants `SchedDefault` and
refuses the real-time policies with `EPERM`. -/
def linuxUnprivileged : Posix :=
  { EPERM := 1, EINVAL := 22, ESRCH := 3,
    pthread_setschedparam := fun _ c =>
      if c.policy = .SchedDefault then 0 else 1 }

/-! ## threaded.h -/

/-- The `QObject` part of the managed object of class `T`: its thread affinity
(`QObject::thread()`), its parent (`QObject::parent()`) and
`metaObject()->className()`. -/
structure QObject where
  thread : ThreadRef
  parent : Option ObjRef
  className : String
  deriving DecidableEq, Repr

/-- The Qt call `QObject::setParent(parent)`, as the relocatable-object
capability "assign the parent relation": it assigns. -/
def QObject.setParent (o : QObject) (parent : Option ObjRef) : QObject :=
  { o with parent := parent }

/-- The Qt call `QObject::moveToThread(target)`, as the relocatable-object
capability "assign the thread affinity": it assigns. -/
def QObject.moveToThread (o : QObject) (target : ThreadRef) : QObject :=
  { o with thread := target }

/-- What `Threaded<T>` does to the outside, in program order: the calls it
issues on a `QThread` (`setObjectName`, `start`, `quit`, `wait`, `terminate`,
`delete`), the calls it issues on the managed object (`setParent`,
`moveToThread`) and the diagnostics it prints. -/
inductive Event where
  | setObjectName (t : ThreadRef) (name : String)
  | setParent (parent : Option ObjRef)
  | moveToThread (t : ThreadRef)
  | start (t : ThreadRef)
  | quit (t : ThreadRef)
  | wait (t : ThreadRef) (ms : Nat)
  | terminate (t : ThreadRef)
  | delete (t : ThreadRef)
  | qWarning (msg : String)
  | qCritical (msg : String)
  deriving DecidableEq, Repr

/-- The answers of Qt that `Threaded<T>` reads.  `isRunning`, `wait` and
`threadParent` (`QThread::isRunning()`, `QThread::wait(ms)` and the
`QObject::parent()` of a `QThread`) may depend on everything issued so far;
`objectThread` is `QObject::thread()` of an object other than the managed
one. -/
structure QtEnv where
  isRunning : List Event → ThreadRef → Bool
  wait : List Event → ThreadRef → Nat → Bool
  threadParent : List Event → ThreadRef → Option ObjRef
  objectThread : ObjRef → ThreadRef

/-- One `Threaded<T>` together with what it refers to: `data` is the object
behind the `QSharedPointer<T>` base (`none` for a null pointer), `mThread` and
`mHasOwnThread` are the two members, and `log` is the trace of events issued
so far. -/
structure Threaded where
  data : Option QObject
  mThread : ThreadRef
  mHasOwnThread : Bool
  log : List Event
  deriving DecidableEq, Repr

/-- The constructor `Threaded<T>::Threaded(T *object, QThread *owner)`, executed
on the thread `cur` (`QThread::currentThread()`), with the trace so far.  The
default constructor is `Threaded.init cur none none log`. -/
def Threaded.init (cur : ThreadRef) (object : Option QObject) (owner : Option ThreadRef)
    (log : List Event) : Threaded :=
  let mHasOwnThread : Bool := decide (owner ≠ none) && decide (owner ≠ some cur)
  if mHasOwnThread then
    let mThread := owner.getD cur
    { data := object, mThread := mThread, mHasOwnThread := mHasOwnThread,
      log := match object with
        | some thisThreadObj => log ++ [Event.setObjectName mThread thisThreadObj.className]
        | none => log }
  else
    { data := object, mThread := cur, mHasOwnThread := mHasOwnThread, log := log }

/-- The text `QObject::tr("Thread for %1 is already running").arg(className)`. -/
def alreadyRunningMessage (className : String) : String :=
  "Thread for " ++ className ++ " is already running"

/-- The method `void Threaded<T>::runThreaded()`. -/
def Threaded.runThreaded (qt : QtEnv) (s : Threaded) : Threaded :=
  match s.data with
  | some thisObj =>
    if thisObj.thread ≠ s.mThread then
      let thisObjParent := thisObj.parent
      let o1 := thisObj.setParent none
      let l1 := s.log ++ [Event.setParent none]
      let o2 := o1.moveToThread s.mThread
      let l2 := l1 ++ [Event.moveToThread s.mThread]
      let restore : Bool :=
        match thisObjParent with
        | some p => decide (s.mThread = qt.objectThread p)
        | none => false
      let o3 := if restore then o2.setParent thisObjParent else o2
      let l3 := if restore then l2 ++ [Event.setParent thisObjParent] else l2
      { s with data := some o3, log := l3 ++ [Event.start s.mThread] }
    else
      { s with log := s.log ++ [Event.qWarning (alreadyRunningMessage thisObj.className)] }
  | none =>
    { s with log := s.log ++ [Event.qCritical "Class T must be based on QObject"] }

/-- The method `void Threaded<T>::quitThread()` (built without
`THREADED_TESTS`, which only adds a debug line). -/
def Threaded.quitThread (qt : QtEnv) (s : Threaded) : Threaded :=
  let s1 := { s with log := s.log ++ [Event.quit s.mThread] }
  if qt.isRunning s1.log s1.mThread then
    let joined := qt.wait s1.log s1.mThread 3000
    let s2 := { s1 with log := s1.log ++ [Event.wait s1.mThread 3000] }
    if !joined then
      let s3 := { s2 with log := s2.log ++ [Event.terminate s2.mThread] }
      { s3 with log := s3.log ++ [Event.wait s3.mThread 3000] }
    else s2
  else s1

/-- The body of the destructor `Threaded<T>::~Threaded()` (built without
`THREADED_TESTS`). -/
def Threaded.destroy (qt : QtEnv) (s : Threaded) : Threaded :=
  if s.mHasOwnThread then
    let s1 := s.quitThread qt
    if qt.threadParent s1.log s1.mThread = none then
      { s1 with log := s1.log ++ [Event.delete s1.mThread] }
    else s1
  else s

/-- The two public operations of a constructed `Threaded<T>`. -/
inductive Op where
  | runThreaded
  | quitThread
  deriving DecidableEq, Repr

/-- Executes one public operation. -/
def Threaded.step (qt : QtEnv) (s : Threaded) : Op → Threaded
  | .runThreaded => s.runThreaded qt
  | .quitThread => s.quitThread qt

/-- Executes a sequence of public operations, first to last. -/
def Threaded.steps (qt : QtEnv) (s : Threaded) (ops : List Op) : Threaded :=
  ops.foldl (Threaded.step qt) s

/-- Number of `start()` calls issued on the thread `t` in a trace. -/
def countStart (t : ThreadRef) (log : List Event) : Nat :=
  log.count (Event.start t)

/-- Number of `terminate()` calls issued on the thread `t` in a trace. -/
def countTerminate (t : ThreadRef) (log : List Event) : Nat :=
  log.count (Event.terminate t)

/-- Number of `delete` expressions applied to the thread `t` in a trace. -/
def countDelete (t : ThreadRef) (log : List Event) : Nat :=
  log.count (Event.delete t)

/-! ## The two classes composed: a `Threaded<T>` whose thread is a `POSIXThread` -/

/-- A `Threaded<T>` and the `POSIXThread` object its `mThread` points to. -/
structure System where
  owner : Threaded
  worker : POSIXThread
  deriving DecidableEq, Repr

/-- The call `QThread::start()` on a `POSIXThread` followed by the entry of the
new thread, whose native id is `tid`, into `run()`.  A thread that is already
running is not started again. -/
def POSIXThread.startAndEnter (env : Posix) (tid : Nat) (t : POSIXThread) : POSIXThread :=
  if t.running then t
  else t.start.run env { currentThread := t.self, currentThreadId := tid }

/-- The operation `runThreaded()` on the composed system: the owner executes
`Threaded.runThreaded`; when that issued `mThread->start()`, the worker is
started and enters `run()` on its own thread with native id `tid`. -/
def System.start (qt : QtEnv) (env : Posix) (tid : Nat) (sys : System) : System :=
  let owner := sys.owner.runThreaded qt
  let issued : Bool :=
    decide (countStart owner.mThread sys.owner.log < countStart owner.mThread owner.log)
  { owner := owner,
    worker := if issued then sys.worker.startAndEnter env tid else sys.worker }

/-- The run cycle of the worker ends and `reset()` fires. -/
def System.cycleEnd (sys : System) : System :=
  { sys with worker := sys.worker.finish }

/-- A Qt environment in which no thread is running, every join succeeds, no
thread has a parent and every other object lives on thread `0`. -/
def quietQt : QtEnv :=
  { isRunning := fun _ _ => false, wait := fun _ _ _ => true,
    threadParent := fun _ _ => none, objectThread := fun _ => 0 }

/-- A Qt environment in which the thread keeps running and no join succeeds;
threads have no parent and every other object lives on thread `7`. -/
def stubbornQt : QtEnv :=
  { isRunning := fun _ _ => true, wait := fun _ _ _ => false,
    threadParent := fun _ _ => none, objectThread := fun _ => 7 }

/-! ## Concrete scenarios -/

/-- The main thread: `QThread` object `0`, native id `100`. -/
def mainCaller : Caller := { currentThread := 0, currentThreadId := 100 }

/-- The worker thread of `QThread` object `1`, running with native id `555`. -/
def workerCaller : Caller := { currentThread := 1, currentThreadId := 555 }

/-- A worker that went through one run cycle with a refused `SchedFIFO`
request and was started again, its new thread not yet in `run()`:
construct, `setThreadParams(SchedFIFO, 10)`, `start()`, `run()` on the worker
thread (refused with `EPERM`), end of the cycle with `reset()`, `start()`. -/
def restartedWorker : POSIXThread :=
  ((((POSIXThread.init 1).setThreadParams linuxUnprivileged mainCaller .SchedFIFO 10).start.run
    linuxUnprivileged workerCaller).finish).start

/-- A running worker whose handle `555` is captured. -/
def runningWorker : POSIXThread :=
  ((POSIXThread.init 1).start).run linuxUnprivileged workerCaller

/-- An owner constructed on thread `0` around an object living on thread `0`
whose parent `4` lives on thread `0`, with the worker `QThread` object `1`. -/
def freshOwner : Threaded :=
  Threaded.init 0 (some { thread := 0, parent := some 4, className := "Obj" }) (some 1) []

/-- An owner constructed on thread `0` without a worker: it borrows thread `0`. -/
def borrowingOwner : Threaded :=
  Threaded.init 0 (some { thread := 0, parent := none, className := "Obj" }) none []

/-- The owner `freshOwner` together with its worker, a new `POSIXThread`. -/
def freshSystem : System :=
  { owner := freshOwner, worker := POSIXThread.init 1 }

/-! ## Theorems: `POSIXThread` -/

/-- The private apply step when a capture is possible or already done: one
call with the captured id and the stored configuration, and the code stored
with its message. -/
theorem setThreadParams0_applies (env : Posix) (cur : Caller) (t : POSIXThread)
    (h : t.mThreadId ≠ 0 ∨ cur.currentThread = t.self) :
    (t.setThreadParams0 env cur).mThreadId
        = (if t.mThreadId = 0 then cur.currentThreadId else t.mThreadId) ∧
    (t.setThreadParams0 env cur).captures
        = (if t.mThreadId = 0 then t.captures + 1 else t.captures) ∧
    (t.setThreadParams0 env cur).calls
        = t.calls ++ [{ thread := (t.setThreadParams0 env cur).mThreadId,
                        policy := t.mScheduler, priority := t.mPriority }] ∧
    (t.setThreadParams0 env cur).mLastError
        = { mCode := env.pthread_setschedparam t.calls
                      { thread := (t.setThreadParams0 env cur).mThreadId,
                        policy := t.mScheduler, priority := t.mPriority },
            mText := errorMessage env (env.pthread_setschedparam t.calls
                      { thread := (t.setThreadParams0 env cur).mThreadId,
                        policy := t.mScheduler, priority := t.mPriority }) } ∧
    (t.setThreadParams0 env cur).mScheduler = t.mScheduler ∧
    (t.setThreadParams0 env cur).mPriority = t.mPriority ∧
    (t.setThreadParams0 env cur).running = t.running ∧
    (t.setThreadParams0 env cur).self = t.self := by
  by_cases h0 : t.mThreadId = 0
  · have hc : cur.currentThread = t.self := by
      rcases h with h | h
      · exact absurd h0 h
      · exact h
    simp [POSIXThread.setThreadParams0, h0, hc, Error.setError]
  · simp [POSIXThread.setThreadParams0, h0, Error.setError]

/-- The private apply step when no id is captured and the caller is another
thread: nothing happens. -/
theorem setThreadParams0_ignored (env : Posix) (cur : Caller) (t : POSIXThread)
    (h0 : t.mThreadId = 0) (hc : cur.currentThread ≠ t.self) :
    t.setThreadParams0 env cur = t := by
  simp [POSIXThread.setThreadParams0, h0, hc]

/-- The message for a nonzero code is never empty. -/
theorem errorMessage_ne_empty (env : Posix) (r : Int) (hr : r ≠ 0) :
    errorMessage env r ≠ "" := by
  unfold errorMessage
  rw [if_neg hr]
  split
  · decide
  · split
    · decide
    · split
      · decide
      · intro h
        have hd := congrArg String.data h
        simp [unknownCodeMessage, String.data_append] at hd

/-- A call of the public setter on a worker that is not running only stores
the configuration. -/
theorem setThreadParams_not_running (env : Posix) (who : Caller) (policy : Scheduler)
    (priority : Nat) (t : POSIXThread) (hrun : t.running = false) :
    t.setThreadParams env who policy priority
      = { t with mScheduler := policy, mPriority := priority % 256 } := by
  simp [POSIXThread.setThreadParams, POSIXThread.isRunning, hrun]

/-- A call of the public setter on a running worker stores the configuration
and then runs the private apply step. -/
theorem setThreadParams_running (env : Posix) (who : Caller) (policy : Scheduler)
    (priority : Nat) (t : POSIXThread) (hrun : t.running = true) :
    t.setThreadParams env who policy priority
      = POSIXThread.setThreadParams0 env who
          { t with mScheduler := policy, mPriority := priority % 256 } := by
  simp [POSIXThread.setThreadParams, POSIXThread.isRunning, hrun]

/-- Claim C1.  A pair (policy, priority) with priority in 0..255 is stored
by `setThreadParams(scheduler, priority)` (from any thread) while the worker is
not running and no handle is captured: nothing is applied yet.  When the
worker is then started and `run()` is entered from the worker thread itself,
the apply step captures the native id of that thread (one capture), calls
`pthread_setschedparam` exactly once, with that id and exactly that policy and
priority, and stores the returned code with its message as `lastError()`; when
the code is 0 the stored result is `(0, "")`. -/
theorem C1_entry_applies_stored_config (env : Posix) (who cur : Caller)
    (policy : Scheduler) (priority : Nat) (t : POSIXThread)
    (hprio : priority < 256) (hrun : t.running = false) (hid : t.mThreadId = 0)
    (hcur : cur.currentThread = t.self) :
    (t.setThreadParams env who policy priority).calls = t.calls ∧
    (t.setThreadParams env who policy priority).mThreadId = 0 ∧
    (t.setThreadParams env who policy priority).lastError = t.lastError ∧
    ((t.setThreadParams env who policy priority).start.run env cur).mThreadId
      = cur.currentThreadId ∧
    ((t.setThreadParams env who policy priority).start.run env cur).captures
      = t.captures + 1 ∧
    ((t.setThreadParams env who policy priority).start.run env cur).calls
      = t.calls ++ [{ thread := cur.currentThreadId, policy := policy,
                      priority := priority }] ∧
    ((t.setThreadParams env who policy priority).start.run env cur).lastError
      = { mCode := env.pthread_setschedparam t.calls
            { thread := cur.currentThreadId, policy := policy, priority := priority },
          mText := errorMessage env (env.pthread_setschedparam t.calls
            { thread := cur.currentThreadId, policy := policy, priority := priority }) } ∧
    (env.pthread_setschedparam t.calls
        { thread := cur.currentThreadId, policy := policy, priority := priority } = 0 →
      ((t.setThreadParams env who policy priority).start.run env cur).lastError
        = { mCode := 0, mText := "" }) := by
  have hmod : priority % 256 = priority := Nat.mod_eq_of_lt hprio
  rw [setThreadParams_not_running env who policy priority t hrun, hmod]
  have key :
      (POSIXThread.run env cur (POSIXThread.start
          { t with mScheduler := policy, mPriority := priority }))
        = { t with running := true, mScheduler := policy, mPriority := priority,
                   mThreadId := cur.currentThreadId, captures := t.captures + 1,
                   calls := t.calls ++ [{ thread := cur.currentThreadId, policy := policy,
                                          priority := priority }],
                   mLastError :=
                     { mCode := env.pthread_setschedparam t.calls
                         { thread := cur.currentThreadId, policy := policy,
                           priority := priority },
                       mText := errorMessage env (env.pthread_setschedparam t.calls
                         { thread := cur.currentThreadId, policy := policy,
                           priority := priority }) } } := by
    simp [POSIXThread.run, POSIXThread.start, POSIXThread.setThreadParams0, hrun, hid, hcur,
      Error.setError]
  rw [key]
  refine ⟨rfl, hid, rfl, rfl, rfl, rfl, rfl, ?_⟩
  intro h0
  simp [POSIXThread.lastError, h0, errorMessage]

/-- Witness for C1: a new `POSIXThread` 1, `(SchedDefault, 0)` set from the
main thread, entry from the worker thread with native id 555. -/
theorem C1_entry_applies_stored_config_witness :
    ((((POSIXThread.init 1).setThreadParams linuxUnprivileged mainCaller
        .SchedDefault 0).start.run linuxUnprivileged workerCaller).calls
      = [{ thread := 555, policy := .SchedDefault, priority := 0 }]) ∧
    ((((POSIXThread.init 1).setThreadParams linuxUnprivileged mainCaller
        .SchedDefault 0).start.run linuxUnprivileged workerCaller).lastError
      = { mCode := 0, mText := "" }) :=
  have h := C1_entry_applies_stored_config linuxUnprivileged mainCaller workerCaller
    .SchedDefault 0 (POSIXThread.init 1) (by decide) rfl rfl rfl
  ⟨h.2.2.2.2.2.1, h.2.2.2.2.2.2.2 rfl⟩

/-- Counterexample to C2 as stated.  The worker `restartedWorker` is running,
but its new thread has not entered `run()` yet, so no handle is captured.
`setThreadParams(SchedDefault, 0)` from the main thread stores the pair and
returns without calling `pthread_setschedparam`: `lastError()` is still the
`EPERM` outcome of the earlier `SchedFIFO` request, although an application of
`(SchedDefault, 0)` would have returned 0. -/
theorem C2_counterexample :
    restartedWorker.running = true ∧
    restartedWorker.lastError
      = { mCode := 1, mText := "Failed to set thread policy: Operation not permitted" } ∧
    (restartedWorker.setThreadParams linuxUnprivileged mainCaller .SchedDefault 0).calls
      = restartedWorker.calls ∧
    (restartedWorker.setThreadParams linuxUnprivileged mainCaller .SchedDefault 0).lastError
      = restartedWorker.lastError ∧
    (restartedWorker.setThreadParams linuxUnprivileged mainCaller .SchedDefault 0).lastError.code
      ≠ linuxUnprivileged.pthread_setschedparam restartedWorker.calls
          { thread := 555, policy := .SchedDefault, priority := 0 } := by
  refine ⟨by decide, by decide, by decide, by decide, by decide⟩

/-- Claim C2, amended.  On a running worker, when a handle is already captured
or the caller is the worker thread itself, `setThreadParams(scheduler,
priority)` stores the pair and performs the apply step before returning: one
new call of `pthread_setschedparam` with the handle and exactly that pair, and
`lastError()` is the outcome of that call.  When no handle is captured and the
caller is another thread, it only stores the pair: no call is made and
`lastError()` is unchanged. -/
theorem C2_running_setter_applies (env : Posix) (cur : Caller) (policy : Scheduler)
    (priority : Nat) (t : POSIXThread) (hprio : priority < 256)
    (hrun : t.running = true) :
    (t.mThreadId ≠ 0 ∨ cur.currentThread = t.self →
      (t.setThreadParams env cur policy priority).mThreadId
        = (if t.mThreadId = 0 then cur.currentThreadId else t.mThreadId) ∧
      (t.setThreadParams env cur policy priority).calls
        = t.calls ++ [{ thread := (t.setThreadParams env cur policy priority).mThreadId,
                        policy := policy, priority := priority }] ∧
      (t.setThreadParams env cur policy priority).lastError
        = { mCode := env.pthread_setschedparam t.calls
              { thread := (t.setThreadParams env cur policy priority).mThreadId,
                policy := policy, priority := priority },
            mText := errorMessage env (env.pthread_setschedparam t.calls
              { thread := (t.setThreadParams env cur policy priority).mThreadId,
                policy := policy, priority := priority }) }) ∧
    (t.mThreadId = 0 ∧ cur.currentThread ≠ t.self →
      (t.setThreadParams env cur policy priority).calls = t.calls ∧
      (t.setThreadParams env cur policy priority).lastError = t.lastError ∧
      (t.setThreadParams env cur policy priority).mScheduler = policy ∧
      (t.setThreadParams env cur policy priority).mPriority = priority) := by
  have hmod : priority % 256 = priority := Nat.mod_eq_of_lt hprio
  rw [setThreadParams_running env cur policy priority t hrun, hmod]
  constructor
  · intro h
    have a := setThreadParams0_applies env cur
      { t with mScheduler := policy, mPriority := priority } h
    exact ⟨a.1, a.2.2.1, a.2.2.2.1⟩
  · rintro ⟨h0, hc⟩
    rw [setThreadParams0_ignored env cur { t with mScheduler := policy, mPriority := priority }
      h0 hc]
    exact ⟨rfl, rfl, rfl, rfl⟩

/-- Witness for the amended C2: on `runningWorker` (handle 555 captured) a
request for `(SchedFIFO, 10)` from the main thread is applied at once and is
refused. -/
theorem C2_running_setter_applies_witness :
    (runningWorker.setThreadParams linuxUnprivileged mainCaller .SchedFIFO 10).calls
      = runningWorker.calls ++ [{ thread := 555, policy := .SchedFIFO, priority := 10 }] ∧
    (runningWorker.setThreadParams linuxUnprivileged mainCaller .SchedFIFO 10).lastError
      = { mCode := 1, mText := "Failed to set thread policy: Operation not permitted" } :=
  have h := (C2_running_setter_applies linuxUnprivileged mainCaller .SchedFIFO 10
    runningWorker (by decide) (by decide)).1 (Or.inl (by decide))
  ⟨h.2.1, h.2.2⟩

/-- Claim C3.  On a running worker whose handle is captured, when the call of
`pthread_setschedparam` triggered by `setThreadParams(scheduler, priority)`
returns a nonzero code `r`: `lastError().code() == r`, the message is not
empty (the fixed texts for `EPERM`, `EINVAL` and `ESRCH`, otherwise the text
that ends in the decimal value of `r`), the stored configuration is the
requested pair and the captured handle is unchanged. -/
theorem C3_failure_recorded_config_kept (env : Posix) (cur : Caller) (policy : Scheduler)
    (priority : Nat) (t : POSIXThread) (hlabels : env.distinctLabels)
    (hprio : priority < 256) (hrun : t.running = true) (hid : t.mThreadId ≠ 0)
    (hr : env.pthread_setschedparam t.calls
            { thread := t.mThreadId, policy := policy, priority := priority } ≠ 0) :
    (t.setThreadParams env cur policy priority).lastError.code
      = env.pthread_setschedparam t.calls
          { thread := t.mThreadId, policy := policy, priority := priority } ∧
    (t.setThreadParams env cur policy priority).lastError.text ≠ "" ∧
    ((t.setThreadParams env cur policy priority).lastError.code = env.EPERM →
      (t.setThreadParams env cur policy priority).lastError.text
        = "Failed to set thread policy: Operation not permitted") ∧
    ((t.setThreadParams env cur policy priority).lastError.code = env.EINVAL →
      (t.setThreadParams env cur policy priority).lastError.text
        = "Failed to set thread policy: Incorrect scheduler or priority value") ∧
    ((t.setThreadParams env cur policy priority).lastError.code = env.ESRCH →
      (t.setThreadParams env cur policy priority).lastError.text
        = "Failed to set thread policy: The thread is not found") ∧
    ((t.setThreadParams env cur policy priority).lastError.code ≠ env.EPERM →
      (t.setThreadParams env cur policy priority).lastError.code ≠ env.EINVAL →
      (t.setThreadParams env cur policy priority).lastError.code ≠ env.ESRCH →
      (t.setThreadParams env cur policy priority).lastError.text
        = "Failed to set thread policy: the error code is "
          ++ toString (t.setThreadParams env cur policy priority).lastError.code) ∧
    (t.setThreadParams env cur policy priority).mScheduler = policy ∧
    (t.setThreadParams env cur policy priority).mPriority = priority ∧
    (t.setThreadParams env cur policy priority).mThreadId = t.mThreadId ∧
    (t.setThreadParams env cur policy priority).captures = t.captures := by
  have hmod : priority % 256 = priority := Nat.mod_eq_of_lt hprio
  obtain ⟨_, _, _, hpi, hps, his⟩ := hlabels
  have a := setThreadParams0_applies env cur
    { t with mScheduler := policy, mPriority := priority } (Or.inl hid)
  rw [setThreadParams_running env cur policy priority t hrun, hmod]
  obtain ⟨aid, acap, _, aerr, asched, aprio, _, _⟩ := a
  simp only [if_neg hid] at aid acap
  rw [aid] at aerr
  simp only [POSIXThread.lastError, Error.code, Error.text]
  rw [aerr]
  refine ⟨rfl, errorMessage_ne_empty env _ hr, ?_, ?_, ?_, ?_, asched, aprio, aid, acap⟩
  · intro h
    simp only at h
    rw [h] at hr
    simp [errorMessage, hr, h]
  · intro h
    simp only at h
    have h1 : env.EINVAL ≠ env.EPERM := fun e => hpi e.symm
    rw [h] at hr
    simp [errorMessage, hr, h, h1]
  · intro h
    simp only at h
    have h1 : env.ESRCH ≠ env.EPERM := fun e => hps e.symm
    have h2 : env.ESRCH ≠ env.EINVAL := fun e => his e.symm
    rw [h] at hr
    simp [errorMessage, hr, h, h1, h2]
  · intro h1 h2 h3
    simp only at h1 h2 h3
    simp [errorMessage, hr, h1, h2, h3, unknownCodeMessage]

/-- Witness for C3: `(SchedRoundRobin, 7)` requested on `runningWorker` on a
platform whose scheduling call returns 95. -/
theorem C3_failure_recorded_config_kept_witness :
    (runningWorker.setThreadParams (linuxReturning 95) mainCaller .SchedRoundRobin 7).lastError
      = { mCode := 95, mText := "Failed to set thread policy: the error code is 95" } ∧
    (runningWorker.setThreadParams (linuxReturning 95) mainCaller .SchedRoundRobin 7).mScheduler
      = .SchedRoundRobin ∧
    (runningWorker.setThreadParams (linuxReturning 95) mainCaller .SchedRoundRobin 7).mPriority
      = 7 ∧
    (runningWorker.setThreadParams (linuxReturning 95) mainCaller .SchedRoundRobin 7).mThreadId
      = 555 :=
  have h := C3_failure_recorded_config_kept (linuxReturning 95) mainCaller .SchedRoundRobin 7
    runningWorker (by decide) (by decide) (by decide) (by decide) (by decide)
  ⟨by decide, h.2.2.2.2.2.2.1, h.2.2.2.2.2.2.2.1, h.2.2.2.2.2.2.2.2.1⟩

/-- Claim C9.  Whatever the state, `reset()` leaves the captured handle at 0
and the configuration at `(SchedDefault, 0)`, and leaves `lastError()` (as
well as the running flag and the trace) unchanged. -/
theorem C9_reset_clears_handle_and_config (t : POSIXThread) :
    t.reset.mThreadId = 0 ∧
    t.reset.mScheduler = Scheduler.SchedDefault ∧
    t.reset.mPriority = 0 ∧
    t.reset.lastError = t.lastError ∧
    t.reset.running = t.running ∧
    t.reset.calls = t.calls ∧
    t.reset.captures = t.captures ∧
    t.reset.self = t.self :=
  ⟨rfl, rfl, rfl, rfl, rfl, rfl, rfl, rfl⟩

/-! ## Theorems: `Threaded<T>` -/

/-- The effect of `quitThread()` in closed form: only the trace grows, by the
quit request, then a join if the thread reports running, then a terminate and
a second join if that first join timed out. -/
theorem quitThread_eq (qt : QtEnv) (s : Threaded) :
    s.quitThread qt
      = { s with log := s.log ++ ([Event.quit s.mThread] ++
            (if qt.isRunning (s.log ++ [Event.quit s.mThread]) s.mThread then
              [Event.wait s.mThread 3000] ++
                (if qt.wait (s.log ++ [Event.quit s.mThread]) s.mThread 3000 then []
                 else [Event.terminate s.mThread, Event.wait s.mThread 3000])
             else [])) } := by
  unfold Threaded.quitThread
  by_cases hr : qt.isRunning (s.log ++ [Event.quit s.mThread]) s.mThread = true
  · by_cases hw : qt.wait (s.log ++ [Event.quit s.mThread]) s.mThread 3000 = true
    · simp [hr, hw]
    · simp [hr, hw]
  · simp [hr]

/-- The method `quitThread()` never issues a `delete`. -/
theorem quitThread_countDelete (qt : QtEnv) (s : Threaded) (t : ThreadRef) :
    countDelete t (s.quitThread qt).log = countDelete t s.log := by
  rw [quitThread_eq]
  unfold countDelete
  by_cases hr : qt.isRunning (s.log ++ [Event.quit s.mThread]) s.mThread = true
  · by_cases hw : qt.wait (s.log ++ [Event.quit s.mThread]) s.mThread 3000 = true
    · simp [hr, hw, List.count_append, List.count_cons]
    · simp [hr, hw, List.count_append, List.count_cons]
  · simp [hr, List.count_append, List.count_cons]

/-- After `runThreaded()` the managed object, if there is one, lives on the
target thread. -/
theorem runThreaded_affinity (qt : QtEnv) (s : Threaded) (o : QObject)
    (h : (s.runThreaded qt).data = some o) : o.thread = s.mThread := by
  unfold Threaded.runThreaded at h
  cases hd : s.data with
  | none => simp [hd] at h
  | some thisObj =>
    by_cases hne : thisObj.thread = s.mThread
    · simp [hd, hne] at h
      rw [← h]; exact hne
    · simp only [hd, ne_eq, hne, not_false_eq_true, if_true] at h
      have h1 := (Option.some.inj h).symm
      rw [h1]
      split <;> rfl

/-- The method `runThreaded()` changes neither `mThread` nor `mHasOwnThread`. -/
theorem runThreaded_members (qt : QtEnv) (s : Threaded) :
    (s.runThreaded qt).mThread = s.mThread ∧
    (s.runThreaded qt).mHasOwnThread = s.mHasOwnThread := by
  unfold Threaded.runThreaded
  cases hd : s.data with
  | none => exact ⟨rfl, rfl⟩
  | some thisObj =>
    by_cases hne : thisObj.thread = s.mThread
    · simp [hne]
    · simp [hne]

/-- When the managed object already lives on the target thread, or there is no
object, `runThreaded()` only prints a diagnostic. -/
theorem runThreaded_noop (qt : QtEnv) (s : Threaded)
    (h : ∀ o, s.data = some o → o.thread = s.mThread) :
    ∃ d, (d = Event.qCritical "Class T must be based on QObject" ∨
          ∃ o, s.data = some o ∧ d = Event.qWarning (alreadyRunningMessage o.className)) ∧
      s.runThreaded qt = { s with log := s.log ++ [d] } := by
  unfold Threaded.runThreaded
  cases hd : s.data with
  | none => exact ⟨_, Or.inl rfl, rfl⟩
  | some thisObj =>
    have := h thisObj hd
    refine ⟨Event.qWarning (alreadyRunningMessage thisObj.className), Or.inr ⟨thisObj, rfl, rfl⟩, ?_⟩
    simp [this]

/-- No sequence of `runThreaded()` and `quitThread()` calls changes `mThread`
or `mHasOwnThread`. -/
theorem steps_members (qt : QtEnv) (ops : List Op) (s : Threaded) :
    (s.steps qt ops).mThread = s.mThread ∧
    (s.steps qt ops).mHasOwnThread = s.mHasOwnThread := by
  induction ops generalizing s with
  | nil => exact ⟨rfl, rfl⟩
  | cons op rest ih =>
    have hstep : (s.step qt op).mThread = s.mThread ∧
        (s.step qt op).mHasOwnThread = s.mHasOwnThread := by
      cases op with
      | runThreaded => exact runThreaded_members qt s
      | quitThread =>
        show (s.quitThread qt).mThread = s.mThread ∧
          (s.quitThread qt).mHasOwnThread = s.mHasOwnThread
        rw [quitThread_eq]
        exact ⟨rfl, rfl⟩
    have := ih (s.step qt op)
    simp only [Threaded.steps, List.foldl_cons] at this ⊢
    exact ⟨this.1.trans hstep.1, this.2.trans hstep.2⟩

/-- Claim C4.  When `mHasOwnThread` is false the destructor does nothing to
the worker: state and trace are unchanged (no quit, no join, no terminate, no
delete).  When it is true the destructor runs `quitThread()` and then, if the
worker has no parent, deletes it exactly once; if the worker has a parent the
destructor is `quitThread()` alone and no `delete` is issued. -/
theorem C4_destructor_frees_owned_parentless_worker (qt : QtEnv) (s : Threaded) :
    (s.mHasOwnThread = false → s.destroy qt = s) ∧
    (s.mHasOwnThread = true →
      (qt.threadParent (s.quitThread qt).log s.mThread = none →
        (s.destroy qt).log = (s.quitThread qt).log ++ [Event.delete s.mThread] ∧
        countDelete s.mThread (s.destroy qt).log = countDelete s.mThread s.log + 1) ∧
      (qt.threadParent (s.quitThread qt).log s.mThread ≠ none →
        s.destroy qt = s.quitThread qt ∧
        countDelete s.mThread (s.destroy qt).log = countDelete s.mThread s.log)) := by
  have hm : (s.quitThread qt).mThread = s.mThread := by rw [quitThread_eq]
  refine ⟨?_, ?_⟩
  · intro h
    simp [Threaded.destroy, h]
  · intro h
    refine ⟨?_, ?_⟩
    · intro hp
      have hd : s.destroy qt
          = { s.quitThread qt with
              log := (s.quitThread qt).log ++ [Event.delete s.mThread] } := by
        simp [Threaded.destroy, h, hm, hp]
      rw [hd]
      refine ⟨rfl, ?_⟩
      have hq := quitThread_countDelete qt s s.mThread
      unfold countDelete at hq ⊢
      simp [List.count_append, hq]
    · intro hp
      have hd : s.destroy qt = s.quitThread qt := by
        simp [Threaded.destroy, h, hm, hp]
      rw [hd]
      exact ⟨rfl, quitThread_countDelete qt s s.mThread⟩

/-- Witness for C4: the owning `freshOwner` is destroyed while its worker keeps
running and has no parent (quit, join, terminate, join, delete); the borrowing
`borrowingOwner` is destroyed without a trace. -/
theorem C4_destructor_frees_owned_parentless_worker_witness :
    (freshOwner.destroy stubbornQt).log
      = [Event.setObjectName 1 "Obj", Event.quit 1, Event.wait 1 3000, Event.terminate 1,
         Event.wait 1 3000, Event.delete 1] ∧
    borrowingOwner.destroy stubbornQt = borrowingOwner :=
  ⟨(((C4_destructor_frees_owned_parentless_worker stubbornQt freshOwner).2 rfl).1 rfl).1.trans
      (by decide),
   (C4_destructor_frees_owned_parentless_worker stubbornQt borrowingOwner).1 rfl⟩

/-- Claim C5.  Whatever the worker answers to `isRunning()` and `wait(3000)`,
`quitThread()` returns, changing only the trace, to which it appends: one
`quit()` first; then, if the worker reports running, one `wait(3000)`; then,
if that join timed out, one `terminate()` followed by one further
`wait(3000)`.  So `terminate()` is called once when the worker reports running
and the first join times out and not at all otherwise, and the answer to the
second join is not consulted: two environments that agree up to the first
join give the same result. -/
theorem C5_quitThread_two_phase (qt : QtEnv) (s : Threaded) :
    (s.quitThread qt).log
      = s.log ++ ([Event.quit s.mThread] ++
          (if qt.isRunning (s.log ++ [Event.quit s.mThread]) s.mThread then
            [Event.wait s.mThread 3000] ++
              (if qt.wait (s.log ++ [Event.quit s.mThread]) s.mThread 3000 then []
               else [Event.terminate s.mThread, Event.wait s.mThread 3000])
           else [])) ∧
    (s.quitThread qt).log.count (Event.quit s.mThread)
      = s.log.count (Event.quit s.mThread) + 1 ∧
    countTerminate s.mThread (s.quitThread qt).log
      = countTerminate s.mThread s.log +
          (if qt.isRunning (s.log ++ [Event.quit s.mThread]) s.mThread = true ∧
              qt.wait (s.log ++ [Event.quit s.mThread]) s.mThread 3000 = false
           then 1 else 0) ∧
    (s.quitThread qt).data = s.data ∧
    (s.quitThread qt).mThread = s.mThread ∧
    (s.quitThread qt).mHasOwnThread = s.mHasOwnThread ∧
    (∀ qt2 : QtEnv,
      qt2.isRunning (s.log ++ [Event.quit s.mThread]) s.mThread
        = qt.isRunning (s.log ++ [Event.quit s.mThread]) s.mThread →
      qt2.wait (s.log ++ [Event.quit s.mThread]) s.mThread 3000
        = qt.wait (s.log ++ [Event.quit s.mThread]) s.mThread 3000 →
      s.quitThread qt2 = s.quitThread qt) := by
  refine ⟨?_, ?_, ?_, ?_, ?_, ?_, ?_⟩
  · rw [quitThread_eq]
  · rw [quitThread_eq]
    by_cases hr : qt.isRunning (s.log ++ [Event.quit s.mThread]) s.mThread = true
    · by_cases hw : qt.wait (s.log ++ [Event.quit s.mThread]) s.mThread 3000 = true
      · simp [hr, hw, List.count_append, List.count_cons]
      · simp [hr, hw, List.count_append, List.count_cons]
    · simp [hr, List.count_append, List.count_cons]
  · rw [quitThread_eq]
    unfold countTerminate
    by_cases hr : qt.isRunning (s.log ++ [Event.quit s.mThread]) s.mThread = true
    · by_cases hw : qt.wait (s.log ++ [Event.quit s.mThread]) s.mThread 3000 = true
      · simp [hr, hw, List.count_append, List.count_cons]
      · simp [hr, hw, List.count_append, List.count_cons]
    · simp [hr, List.count_append, List.count_cons]
  · rw [quitThread_eq]
  · rw [quitThread_eq]
  · rw [quitThread_eq]
  · intro qt2 h1 h2
    rw [quitThread_eq, quitThread_eq, h1, h2]

/-- Witness for C5: on a worker that keeps running and never joins, the trace
of `quitThread()` is quit, join, terminate, join; and the environment that
answers the same up to the first join gives the same result. -/
theorem C5_quitThread_two_phase_witness :
    (freshOwner.quitThread stubbornQt).log
      = [Event.setObjectName 1 "Obj", Event.quit 1, Event.wait 1 3000, Event.terminate 1,
         Event.wait 1 3000] ∧
    freshOwner.quitThread
        { stubbornQt with wait := fun log _ _ => decide (4 ≤ log.length) }
      = freshOwner.quitThread stubbornQt :=
  ⟨(C5_quitThread_two_phase stubbornQt freshOwner).1.trans (by decide),
   (C5_quitThread_two_phase stubbornQt freshOwner).2.2.2.2.2.2 _ rfl rfl⟩

/-- Claim C6.  When the managed object lives on a thread other than `mThread`,
`runThreaded()` leaves it on `mThread`; its parent is the previous parent if
there was one and that parent lives on `mThread`, and is null otherwise; the
calls issued are `setParent(NULL)`, `moveToThread(mThread)`, the restoring
`setParent` in the first case, and last one `mThread->start()`: the worker is
started exactly once, after the relocation. -/
theorem C6_runThreaded_relocates_then_starts (qt : QtEnv) (s : Threaded) (o : QObject)
    (hdata : s.data = some o) (hne : o.thread ≠ s.mThread) :
    (s.runThreaded qt).data
      = some { thread := s.mThread,
               parent := o.parent.filter (fun p => decide (qt.objectThread p = s.mThread)),
               className := o.className } ∧
    (s.runThreaded qt).log
      = s.log ++ ([Event.setParent none, Event.moveToThread s.mThread] ++
          (if (o.parent.filter (fun p => decide (qt.objectThread p = s.mThread))).isSome
           then [Event.setParent o.parent] else []) ++
          [Event.start s.mThread]) ∧
    countStart s.mThread (s.runThreaded qt).log = countStart s.mThread s.log + 1 ∧
    (s.runThreaded qt).mThread = s.mThread ∧
    (s.runThreaded qt).mHasOwnThread = s.mHasOwnThread := by
  unfold Threaded.runThreaded countStart
  cases hp : o.parent with
  | none =>
    simp [hdata, hne, hp, QObject.setParent, QObject.moveToThread, List.count_append,
      List.count_cons]
  | some p =>
    by_cases hq : qt.objectThread p = s.mThread
    · simp [hdata, hne, hp, hq, QObject.setParent, QObject.moveToThread, List.count_append,
        List.count_cons, Option.filter]
    · have hq2 : ¬ s.mThread = qt.objectThread p := fun e => hq e.symm
      simp [hdata, hne, hp, hq, hq2, QObject.setParent, QObject.moveToThread,
        List.count_append, List.count_cons, Option.filter]

/-- Witness for C6: the object of `freshOwner` lives on thread 0 with parent 4;
in `stubbornQt` the parent lives on thread 7, not on the worker 1, so the
object ends on thread 1 without a parent and the worker is started once. -/
theorem C6_runThreaded_relocates_then_starts_witness :
    (freshOwner.runThreaded stubbornQt).data
      = some { thread := 1, parent := none, className := "Obj" } ∧
    (freshOwner.runThreaded stubbornQt).log
      = [Event.setObjectName 1 "Obj", Event.setParent none, Event.moveToThread 1,
         Event.start 1] :=
  have h := C6_runThreaded_relocates_then_starts stubbornQt freshOwner
    { thread := 0, parent := some 4, className := "Obj" } rfl (by decide)
  ⟨h.1.trans (by decide), h.2.1.trans (by decide)⟩

/-- Claim C7.  When the managed object already lives on `mThread`,
`runThreaded()` changes neither its affinity nor its parent, prints the
warning and does not start the worker: only the warning is appended to the
trace.  Hence, for every owner, a second `runThreaded()` right after a first
one leaves object, `mThread` and `mHasOwnThread` as the first left them and
appends only a diagnostic: the two calls together start the worker at most
once. -/
theorem C7_runThreaded_idempotent (qt : QtEnv) (s : Threaded) :
    (∀ o, s.data = some o → o.thread = s.mThread →
      s.runThreaded qt
        = { s with log := s.log ++ [Event.qWarning (alreadyRunningMessage o.className)] }) ∧
    ((s.runThreaded qt).runThreaded qt).data = (s.runThreaded qt).data ∧
    ((s.runThreaded qt).runThreaded qt).mThread = (s.runThreaded qt).mThread ∧
    ((s.runThreaded qt).runThreaded qt).mHasOwnThread = (s.runThreaded qt).mHasOwnThread ∧
    (∃ msg, ((s.runThreaded qt).runThreaded qt).log
              = (s.runThreaded qt).log ++ [Event.qWarning msg] ∨
            ((s.runThreaded qt).runThreaded qt).log
              = (s.runThreaded qt).log ++ [Event.qCritical msg]) ∧
    countStart s.mThread ((s.runThreaded qt).runThreaded qt).log
      = countStart s.mThread (s.runThreaded qt).log ∧
    countStart s.mThread ((s.runThreaded qt).runThreaded qt).log
      ≤ countStart s.mThread s.log + 1 := by
  have first : ∀ o, s.data = some o → o.thread = s.mThread →
      s.runThreaded qt
        = { s with log := s.log ++ [Event.qWarning (alreadyRunningMessage o.className)] } := by
    intro o hd he
    simp [Threaded.runThreaded, hd, he]
  have hm := (runThreaded_members qt s).1
  have haff : ∀ o, (s.runThreaded qt).data = some o → o.thread = (s.runThreaded qt).mThread := by
    intro o ho
    rw [hm]
    exact runThreaded_affinity qt s o ho
  obtain ⟨d, hd, hsecond⟩ := runThreaded_noop qt (s.runThreaded qt) haff
  have hone : countStart s.mThread (s.runThreaded qt).log ≤ countStart s.mThread s.log + 1 := by
    unfold Threaded.runThreaded countStart
    cases hdat : s.data with
    | none => simp [List.count_append, List.count_cons]
    | some thisObj =>
      by_cases hne : thisObj.thread = s.mThread
      · simp [hne, List.count_append, List.count_cons]
      · simp only [ne_eq, hne, not_false_eq_true, if_true]
        split <;> simp [List.count_append, List.count_cons]
  have hsame : countStart s.mThread ((s.runThreaded qt).runThreaded qt).log
      = countStart s.mThread (s.runThreaded qt).log := by
    rw [hsecond]
    unfold countStart
    rcases hd with hd | ⟨o, _, hd⟩ <;> simp [hd, List.count_append, List.count_cons]
  refine ⟨first, ?_, ?_, ?_, ?_, hsame, hsame.le.trans hone⟩
  · rw [hsecond]
  · rw [hsecond]
  · rw [hsecond]
  · rw [hsecond]
    rcases hd with hd | ⟨o, _, hd⟩
    · exact ⟨_, Or.inr (by rw [hd])⟩
    · exact ⟨_, Or.inl (by rw [hd])⟩

/-- Witness for C7: `freshOwner` once started has its object on the worker 1;
the next `runThreaded()` only appends the warning. -/
theorem C7_runThreaded_idempotent_witness :
    (freshOwner.runThreaded quietQt).runThreaded quietQt
      = { freshOwner.runThreaded quietQt with
          log := (freshOwner.runThreaded quietQt).log
                  ++ [Event.qWarning "Thread for Obj is already running"] } :=
  ((C7_runThreaded_idempotent quietQt (freshOwner.runThreaded quietQt)).1
    { thread := 1, parent := none, className := "Obj" } (by decide) (by decide)).trans
    (by decide)

/-- Claim C10.  The constructor sets `mHasOwnThread` to true exactly when a
worker is supplied and it is not the thread the constructor runs on, and then
`mThread` is the supplied worker; otherwise `mHasOwnThread` is false and
`mThread` is the current thread.  No sequence of `runThreaded()` and
`quitThread()` calls changes either member afterwards. -/
theorem C10_ownership_fixed_at_construction (cur : ThreadRef) (object : Option QObject)
    (owner : Option ThreadRef) (log : List Event) (qt : QtEnv) (ops : List Op) :
    ((Threaded.init cur object owner log).mHasOwnThread = true
      ↔ ∃ w, owner = some w ∧ w ≠ cur) ∧
    (∀ w, owner = some w → w ≠ cur →
      (Threaded.init cur object owner log).mHasOwnThread = true ∧
      (Threaded.init cur object owner log).mThread = w) ∧
    ((owner = none ∨ owner = some cur) →
      (Threaded.init cur object owner log).mHasOwnThread = false ∧
      (Threaded.init cur object owner log).mThread = cur) ∧
    ((Threaded.init cur object owner log).steps qt ops).mHasOwnThread
      = (Threaded.init cur object owner log).mHasOwnThread ∧
    ((Threaded.init cur object owner log).steps qt ops).mThread
      = (Threaded.init cur object owner log).mThread := by
  have hsteps := steps_members qt ops (Threaded.init cur object owner log)
  refine ⟨?_, ?_, ?_, hsteps.2, hsteps.1⟩
  · cases owner with
    | none => simp [Threaded.init]
    | some w =>
      by_cases hw : w = cur
      · simp [Threaded.init, hw]
      · simp [Threaded.init, hw]
  · intro w ho hw
    simp [Threaded.init, ho, hw]
  · intro h
    rcases h with h | h
    · simp [Threaded.init, h]
    · simp [Threaded.init, h]

/-- Witness for C10: `freshOwner` owns the supplied worker 1; `borrowingOwner`
borrows the current thread 0; a `runThreaded()` and a `quitThread()` change
neither. -/
theorem C10_ownership_fixed_at_construction_witness :
    (freshOwner.mHasOwnThread = true ∧ freshOwner.mThread = 1) ∧
    (borrowingOwner.mHasOwnThread = false ∧ borrowingOwner.mThread = 0) ∧
    (freshOwner.steps stubbornQt [Op.runThreaded, Op.quitThread]).mHasOwnThread = true :=
  ⟨(C10_ownership_fixed_at_construction 0
      (some { thread := 0, parent := some 4, className := "Obj" }) (some 1) [] stubbornQt
      [Op.runThreaded, Op.quitThread]).2.1 1 rfl (by decide),
   (C10_ownership_fixed_at_construction 0
      (some { thread := 0, parent := none, className := "Obj" }) none [] stubbornQt
      []).2.2.1 (Or.inl rfl),
   (C10_ownership_fixed_at_construction 0
      (some { thread := 0, parent := some 4, className := "Obj" }) (some 1) [] stubbornQt
      [Op.runThreaded, Op.quitThread]).2.2.2.1.trans (by decide)⟩

/-- Claim C8, evaluated on the code at `freshSystem`.  The owner is started
(the worker enters `run()` with native id 555 and captures it), the run cycle
ends and `reset()` fires: the handle is 0 and the worker is not running, as
the claim says.  A second `runThreaded()` on the same owner finds the object
still on the worker thread and takes the branch written for a running worker:
the last event is the warning "Thread for Obj is already running" although
the worker is not running, no `start()` is issued, the worker stays stopped,
its handle stays 0 and the capture count stays 1, where the claim requires a
restart with a fresh capture. -/
theorem C8_second_runThreaded_does_not_restart :
    ((System.start quietQt linuxUnprivileged 555 freshSystem).cycleEnd).worker.mThreadId = 0 ∧
    ((System.start quietQt linuxUnprivileged 555 freshSystem).cycleEnd).worker.running
      = false ∧
    ((System.start quietQt linuxUnprivileged 555 freshSystem).cycleEnd).worker.captures = 1 ∧
    (System.start quietQt linuxUnprivileged 556
      (System.start quietQt linuxUnprivileged 555 freshSystem).cycleEnd).owner.log
      = ((System.start quietQt linuxUnprivileged 555 freshSystem).cycleEnd).owner.log
          ++ [Event.qWarning "Thread for Obj is already running"] ∧
    countStart 1 (System.start quietQt linuxUnprivileged 556
      (System.start quietQt linuxUnprivileged 555 freshSystem).cycleEnd).owner.log
      = countStart 1 (System.start quietQt linuxUnprivileged 555 freshSystem).owner.log ∧
    (System.start quietQt linuxUnprivileged 556
      (System.start quietQt linuxUnprivileged 555 freshSystem).cycleEnd).worker.running
      = false ∧
    (System.start quietQt linuxUnprivileged 556
      (System.start quietQt linuxUnprivileged 555 freshSystem).cycleEnd).worker.mThreadId
      = 0 ∧
    (System.start quietQt linuxUnprivileged 556
      (System.start quietQt linuxUnprivileged 555 freshSystem).cycleEnd).worker.captures
      ≠ ((System.start quietQt linuxUnprivileged 555 freshSystem).cycleEnd).worker.captures
          + 1 := by
  decide

end QtThreadUtilities
